import Mathlib

/-!
Verification of the inference handler and packaging helpers of the
`amazon-sagemaker-flan-t5-xxl` notebook (`src/sagemaker-notebook.ipynb`),
as a shallow embedding in Lean 4.

The embedded pieces are:
* the request/response handling of `predict_fn` in `code/inference.py`;
* the model/tokenizer loading calls of `model_fn` in `code/inference.py`;
* the IAM-role acquisition cell with its `ValueError` fallback;
* the static `code/requirements.txt` contents;
* the `compress` helper building `model.tar.gz`;
* the top-to-bottom cell order of the notebook.
-/

namespace FlanT5

/-- A Python value as it appears in the JSON request payloads of the
endpoint: strings, integers, booleans, `None`, objects (dicts) and lists. -/
inductive PyVal where
  | str : String → PyVal
  | int : Int → PyVal
  | bool : Bool → PyVal
  | none : PyVal
  | obj : List (String × PyVal) → PyVal
  | list : List PyVal → PyVal

/-- Python's `x is None` identity test (the only test `predict_fn` makes
on the popped `parameters` value). -/
def PyVal.isNone : PyVal → Bool
  | PyVal.none => true
  | _ => false

/-- A Python dict with string keys, modelled as an association list.
Python dicts never hold a key twice, so first-match lookup is exact. -/
abbrev Dict (α : Type) := List (String × α)

/-- Lookup `d[k]`: the value of the first binding of `k`. -/
def Dict.get {α : Type} (d : Dict α) (k : String) : Option α :=
  match d with
  | [] => Option.none
  | (k', v) :: rest => if k' = k then some v else Dict.get rest k

/-- Removal of a key, as performed by `dict.pop`: every binding of `k`
is dropped (at most one exists in a real Python dict). -/
def Dict.remove {α : Type} (d : Dict α) (k : String) : Dict α :=
  d.filter (fun p => p.1 ≠ k)

/-- Python `d.pop(k, default)` without the default: the looked-up value (if any)
together with the dict after the destructive removal.  When `k` is absent
the dict is unchanged (`Dict.remove` drops nothing). -/
def Dict.pop {α : Type} (d : Dict α) (k : String) : Option α × Dict α :=
  (Dict.get d k, Dict.remove d k)

/-- A request payload: the JSON body handed to `predict_fn` as `data`. -/
abbrev Payload := Dict PyVal

/-- What gets passed to the tokenizer call `tokenizer(inputs, ...)`:
either the value stored under `"inputs"`, or — when that key is absent and
`data.pop("inputs", data)` returns its default — the payload dict object
itself.  Because the default aliases the dict, the object seen by the
tokenizer is the payload *after* the later `pop("parameters", None)`. -/
inductive TokenizeInput where
  | val : PyVal → TokenizeInput
  | payload : Payload → TokenizeInput

/-- The abstract model/tokenizer pair produced by `model_fn` and consumed
by `predict_fn`.  `encode` is `tokenizer(x, return_tensors="pt").input_ids`,
`generate` is `model.generate(input_ids, **kwargs)` (a call with no keyword
arguments is the call with the empty keyword dict, as in Python), and
`decode` is `tokenizer.decode(seq, skip_special_tokens=True)`. -/
structure ModelAndTokenizer where
  encode : TokenizeInput → List Nat
  generate : List Nat → Dict PyVal → List (List Nat)
  decode : List Nat → String

/-- The keyword-argument dict produced by `**parameters`.  `predict_fn`
only reaches this splat when `parameters` is a mapping; a non-mapping value
would raise in Python and never occurs in the endpoint payloads. -/
def kwargsOf : PyVal → Dict PyVal
  | PyVal.obj l => l
  | _ => []

/-- Everything observable about one `predict_fn` call: the value handed to
the tokenizer, the token ids and keyword arguments of the `generate` call,
the sequences `generate` returned, the payload dict as the caller sees it
afterwards, and the JSON response.  `response` is `Option`: the source
indexes `outputs[0]`, which raises `IndexError` when `generate` returns no
sequence. -/
structure PredictTrace where
  tokInput : TokenizeInput
  inputIds : List Nat
  kwargs : Dict PyVal
  outputs : List (List Nat)
  finalData : Payload
  response : Option (List (Dict String))

/-- Shallow embedding of `predict_fn(data, model_and_tokenizer)` from
`code/inference.py`:

    inputs = data.pop("inputs", data)
    parameters = data.pop("parameters", None)
    input_ids = tokenizer(inputs, return_tensors="pt").input_ids
    if parameters is not None:
        outputs = model.generate(input_ids, **parameters)
    else:
        outputs = model.generate(input_ids)
    prediction = tokenizer.decode(outputs[0], skip_special_tokens=True)
    return [{"generated_text": prediction}]
-/
def predict_fn (m : ModelAndTokenizer) (data : Payload) : PredictTrace :=
  let poppedInputs := Dict.pop data "inputs"
  let data1 := poppedInputs.2
  let poppedParams := Dict.pop data1 "parameters"
  let parameters : PyVal := (poppedParams.1).getD PyVal.none
  let data2 := poppedParams.2
  let tokInput : TokenizeInput :=
    match poppedInputs.1 with
    | some v => TokenizeInput.val v
    | Option.none => TokenizeInput.payload data2
  let input_ids := m.encode tokInput
  let kwargs : Dict PyVal :=
    if parameters.isNone then [] else kwargsOf parameters
  let outputs := m.generate input_ids kwargs
  let response : Option (List (Dict String)) :=
    match outputs with
    | o :: _ => some [[("generated_text", m.decode o)]]
    | [] => Option.none
  { tokInput := tokInput
    inputIds := input_ids
    kwargs := kwargs
    outputs := outputs
    finalData := data2
    response := response }

/-- The arguments of the `AutoModelForSeq2SeqLM.from_pretrained` call made
by `model_fn`. -/
structure Seq2SeqLoadCall where
  path : String
  device_map : String
  load_in_8bit : Bool

/-- The argument of the `AutoTokenizer.from_pretrained` call made by
`model_fn`. -/
structure TokenizerLoadCall where
  path : String

/-- Shallow embedding of `model_fn(model_dir)` from `code/inference.py`:

    model = AutoModelForSeq2SeqLM.from_pretrained(model_dir, device_map="auto", load_in_8bit=True)
    tokenizer = AutoTokenizer.from_pretrained(model_dir)
    return model, tokenizer

The embedding records the two loading calls; the pair returned mirrors
`(model, tokenizer)`. -/
def model_fn (model_dir : String) : Seq2SeqLoadCall × TokenizerLoadCall :=
  ({ path := model_dir, device_map := "auto", load_in_8bit := true },
   { path := model_dir })

/-- A Python exception, classified by whether it is a `ValueError` (the
only type the notebook catches) or anything else. -/
inductive PyExn where
  | valueError : String → PyExn
  | other : String → PyExn

/-- Outcome of a Python call that may raise. -/
abbrev Raises (α : Type) := Except PyExn α

/-- Observable outcome of the role-acquisition cell: the role (or the
uncaught exception), and the `RoleName` used in the fallback `iam.get_role`
call, when that branch ran. -/
structure RoleTrace where
  role : Raises String
  fallbackRoleName : Option String

/-- Shallow embedding of the credential-acquisition cell:

    try:
        role = sagemaker.get_execution_role()
    except ValueError:
        iam = boto3.client('iam')
        role = iam.get_role(RoleName='sagemaker_execution_role')['Role']['Arn']

`get_execution_role` is the outcome of `sagemaker.get_execution_role()`
and `iam_get_role` maps a `RoleName` to the outcome of
`iam.get_role(RoleName=...)['Role']['Arn']` (which may itself raise, and
is then uncaught). -/
def acquire_role (get_execution_role : Raises String)
    (iam_get_role : String → Raises String) : RoleTrace :=
  match get_execution_role with
  | Except.ok r => { role := Except.ok r, fallbackRoleName := Option.none }
  | Except.error (PyExn.valueError _) =>
      { role := iam_get_role "sagemaker_execution_role"
        fallbackRoleName := some "sagemaker_execution_role" }
  | Except.error e => { role := Except.error e, fallbackRoleName := Option.none }

/-- The exact text written by the `%%writefile code/requirements.txt` cell. -/
def requirements_txt : String :=
  "accelerate==0.16.0\ntransformers==4.26.0\nbitsandbytes==0.37.0"

/-- One member added to the tar archive: the path given to `tar.add` and
the `arcname` under which it is stored. -/
structure TarEntry where
  path : String
  arcname : String
deriving DecidableEq, Repr

/-- The filesystem as `compress` observes it: the current working
directory and, for each directory path, its `os.listdir` contents. -/
structure FS where
  cwd : String
  listing : String → List String

/-- The archive produced by a successful `compress` call: where it was
opened (`os.path.join(parent_dir, output_file)`), the `tarfile.open` mode,
and the members added. -/
structure CompressResult where
  archivePath : String
  mode : String
  entries : List TarEntry

/-- `os.path.join(a, b)` for a relative second component. -/
def joinPath (a b : String) : String := a ++ "/" ++ b

/-- The loop body `tar.add(item, arcname=item)` over the listed items.
`addFail` is an oracle giving the I/O exception (if any) that the
`tar.add` call for an item raises; the first exception aborts the loop. -/
def addItems (addFail : String → Option PyExn) :
    List String → Except PyExn (List TarEntry)
  | [] => Except.ok []
  | item :: rest =>
      match addFail item with
      | some e => Except.error e
      | Option.none =>
          match addItems addFail rest with
          | Except.ok es => Except.ok ({ path := item, arcname := item } :: es)
          | Except.error e => Except.error e

/-- Shallow embedding of the `compress` helper:

    def compress(tar_dir=None, output_file="model.tar.gz"):
        parent_dir = os.getcwd()
        os.chdir(tar_dir)
        with tarfile.open(os.path.join(parent_dir, output_file), "w:gz") as tar:
            for item in os.listdir('.'):
                print(item)
                tar.add(item, arcname=item)
        os.chdir(parent_dir)

On success it returns the archive description and the filesystem after the
final `os.chdir(parent_dir)`.  When a `tar.add` raises, the exception
propagates with the filesystem still sitting in `tar_dir` (the restoring
`chdir` is never reached). -/
def compress (fs : FS) (addFail : String → Option PyExn) (tar_dir : String)
    (output_file : String := "model.tar.gz") :
    Except (PyExn × FS) (CompressResult × FS) :=
  let parent_dir := fs.cwd
  let fs1 : FS := { fs with cwd := tar_dir }
  match addItems addFail (fs1.listing fs1.cwd) with
  | Except.error e => Except.error (e, fs1)
  | Except.ok entries =>
      Except.ok ({ archivePath := joinPath parent_dir output_file
                   mode := "w:gz"
                   entries := entries },
                 { fs1 with cwd := parent_dir })

/-- The externally visible actions of the notebook cells, one label per
code cell (markdown cells perform nothing). -/
inductive NotebookStep where
  | installDependencies
  | acquireSession
  | makeCodeDir
  | writeRequirementsFile
  | writeInferenceFile
  | downloadWeights
  | copyHandlerCode
  | compressArchive
  | uploadArchive
  | deployModel
  | sendPredictRequest
  | deleteResources
deriving DecidableEq, Repr

/-- The notebook's code cells in top-to-bottom source order:
`pip install`, the session/role cell, `mkdir code`, the two `%%writefile`
cells, the `snapshot_download`/`copy_tree` cell, the `copy_tree("code/", ...)`
cell, the `compress(...)` cell, the `S3Uploader.upload` cell, the
`HuggingFaceModel(...).deploy(...)` cell, the two `predictor.predict`
cells, and the `delete_model`/`delete_endpoint` cell. -/
def notebookCells : List NotebookStep :=
  [NotebookStep.installDependencies,
   NotebookStep.acquireSession,
   NotebookStep.makeCodeDir,
   NotebookStep.writeRequirementsFile,
   NotebookStep.writeInferenceFile,
   NotebookStep.downloadWeights,
   NotebookStep.copyHandlerCode,
   NotebookStep.compressArchive,
   NotebookStep.uploadArchive,
   NotebookStep.deployModel,
   NotebookStep.sendPredictRequest,
   NotebookStep.sendPredictRequest,
   NotebookStep.deleteResources]

/-! ### Dictionary lemmas -/

theorem Dict.remove_cons {α : Type} (a : String) (v : α) (rest : Dict α) (k : String) :
    Dict.remove ((a, v) :: rest) k =
      if a = k then Dict.remove rest k else (a, v) :: Dict.remove rest k := by
  by_cases h : a = k <;> simp [Dict.remove, h]

theorem Dict.get_cons {α : Type} (a : String) (v : α) (rest : Dict α) (q : String) :
    Dict.get ((a, v) :: rest) q = if a = q then some v else Dict.get rest q := rfl

theorem Dict.get_remove_ne {α : Type} (d : Dict α) {k q : String} (h : q ≠ k) :
    Dict.get (Dict.remove d k) q = Dict.get d q := by
  induction d with
  | nil => rfl
  | cons p rest ih =>
    obtain ⟨a, v⟩ := p
    rw [Dict.remove_cons]
    by_cases hak : a = k
    · have haq : ¬ a = q := fun e => h (by rw [← e]; exact hak)
      rw [if_pos hak, Dict.get_cons, if_neg haq]
      exact ih
    · rw [if_neg hak, Dict.get_cons, Dict.get_cons]
      by_cases haq : a = q
      · rw [if_pos haq, if_pos haq]
      · rw [if_neg haq, if_neg haq]
        exact ih

theorem Dict.get_remove_self {α : Type} (d : Dict α) (k : String) :
    Dict.get (Dict.remove d k) k = Option.none := by
  induction d with
  | nil => rfl
  | cons p rest ih =>
    obtain ⟨a, v⟩ := p
    rw [Dict.remove_cons]
    by_cases hak : a = k
    · rw [if_pos hak]
      exact ih
    · rw [if_neg hak, Dict.get_cons, if_neg hak]
      exact ih

theorem Dict.remove_of_get_none {α : Type} (d : Dict α) (k : String)
    (h : Dict.get d k = Option.none) : Dict.remove d k = d := by
  induction d with
  | nil => rfl
  | cons p rest ih =>
    obtain ⟨a, v⟩ := p
    rw [Dict.get_cons] at h
    by_cases hak : a = k
    · rw [if_pos hak] at h
      exact absurd h (by simp)
    · rw [if_neg hak] at h
      rw [Dict.remove_cons, if_neg hak, ih h]

/-! ### Demo inputs used by the witnesses -/

/-- A concrete model/tokenizer pair for evaluating `predict_fn`. -/
def demoModel : ModelAndTokenizer where
  encode := fun _ => [11, 12]
  generate := fun ids _ => [ids ++ [13]]
  decode := fun _ => "Peter stayed with Elizabeth at the hospital for 3 days."

/-- A concrete request payload with `inputs`, `parameters` and one extra key. -/
def demoPayload : Payload :=
  [("inputs", PyVal.str "Summarize the following text: ..."),
   ("parameters", PyVal.obj [("max_new_tokens", PyVal.int 50),
                             ("temperature", PyVal.int 0)]),
   ("request_id", PyVal.int 7)]

/-- A concrete request payload with no `inputs` key. -/
def demoPayloadNoInputs : Payload :=
  [("text", PyVal.str "hello"), ("parameters", PyVal.obj [])]

/-! ### Claims about `predict_fn` -/

/-- C2: for every request payload containing an `inputs` string, whenever the
generation step yields a first sequence `o`, `predict_fn` returns the
single-element list `[{"generated_text": decode o}]` — a one-entry dict whose
only key is `generated_text`, mapped to the decode of the first generated
sequence. -/
theorem predict_fn_response_generated_text (m : ModelAndTokenizer) (data : Payload)
    (s : String) (o : List Nat) (rest : List (List Nat))
    (_hin : Dict.get data "inputs" = some (PyVal.str s))
    (hout : (predict_fn m data).outputs = o :: rest) :
    (predict_fn m data).response = some [[("generated_text", m.decode o)]] := by
  have hresp : (predict_fn m data).response =
      match (predict_fn m data).outputs with
      | o' :: _ => some [[("generated_text", m.decode o')]]
      | [] => Option.none := rfl
  rw [hresp, hout]

/-- Witness for C2 at the demo model and payload. -/
theorem predict_fn_response_generated_text_witness :
    (predict_fn demoModel demoPayload).response =
      some [[("generated_text",
              "Peter stayed with Elizabeth at the hospital for 3 days.")]] :=
  predict_fn_response_generated_text demoModel demoPayload
    "Summarize the following text: ..." [11, 12, 13] [] rfl rfl

/-- C3: `predict_fn` tokenizes the extracted `inputs` value and calls the
generation routine on the token ids; the keyword arguments of that call are
exactly the key/value pairs of `parameters` when a non-`None` `parameters`
mapping is present, and empty (no extra keyword arguments) when `parameters`
is absent or `None`. -/
theorem predict_fn_parameter_passthrough (m : ModelAndTokenizer) (data : Payload) :
    (predict_fn m data).inputIds = m.encode ((predict_fn m data).tokInput)
    ∧ (predict_fn m data).outputs =
        m.generate ((predict_fn m data).inputIds) ((predict_fn m data).kwargs)
    ∧ (∀ v, Dict.get data "inputs" = some v →
        (predict_fn m data).tokInput = TokenizeInput.val v)
    ∧ (∀ ps, Dict.get data "parameters" = some (PyVal.obj ps) →
        (predict_fn m data).kwargs = ps)
    ∧ ((Dict.get data "parameters" = Option.none ∨
        Dict.get data "parameters" = some PyVal.none) →
        (predict_fn m data).kwargs = []) := by
  have hparams : Dict.get (Dict.remove data "inputs") "parameters" =
      Dict.get data "parameters" :=
    Dict.get_remove_ne data (by decide)
  refine ⟨rfl, rfl, ?_, ?_, ?_⟩
  · intro v hv
    simp only [predict_fn, Dict.pop, hv]
  · intro ps hps
    simp only [predict_fn, Dict.pop, hparams, hps, Option.getD_some, PyVal.isNone,
      kwargsOf, Bool.false_eq_true, if_false]
  · intro hnone
    rcases hnone with hn | hn
    · simp only [predict_fn, Dict.pop, hparams, hn, Option.getD_none, PyVal.isNone,
        if_true]
    · simp only [predict_fn, Dict.pop, hparams, hn, Option.getD_some, PyVal.isNone,
        if_true]

/-- Witness for C3 at the demo model and payload: the keyword arguments of the
generation call are exactly the pairs of the payload's `parameters` object. -/
theorem predict_fn_parameter_passthrough_witness :
    (predict_fn demoModel demoPayload).kwargs =
      [("max_new_tokens", PyVal.int 50), ("temperature", PyVal.int 0)] :=
  (predict_fn_parameter_passthrough demoModel demoPayload).2.2.2.1
    [("max_new_tokens", PyVal.int 50), ("temperature", PyVal.int 0)] rfl

/-- C8: when the payload has no `inputs` key, `predict_fn` does not fail on
the lookup: `data.pop("inputs", data)` returns its default — the payload dict
itself — and that object (which by tokenize time has also had `parameters`
popped) is what gets passed to the tokenizer. -/
theorem predict_fn_missing_inputs_fallback (m : ModelAndTokenizer) (data : Payload)
    (h : Dict.get data "inputs" = Option.none) :
    (predict_fn m data).tokInput = TokenizeInput.payload ((predict_fn m data).finalData)
    ∧ (predict_fn m data).finalData = Dict.remove data "parameters" := by
  constructor
  · simp only [predict_fn, Dict.pop, h]
  · have hfd : (predict_fn m data).finalData =
        Dict.remove (Dict.remove data "inputs") "parameters" := rfl
    rw [hfd, Dict.remove_of_get_none data "inputs" h]

/-- Witness for C8 at a payload lacking `inputs`. -/
theorem predict_fn_missing_inputs_fallback_witness :
    (predict_fn demoModel demoPayloadNoInputs).finalData =
      [("text", PyVal.str "hello")] :=
  (predict_fn_missing_inputs_fallback demoModel demoPayloadNoInputs rfl).2

/-- C9: `predict_fn` destructively pops `inputs` and `parameters` from its
payload argument: afterwards the dict is the original minus those two keys —
both lookups now miss — and every other key still maps to its original
value. -/
theorem predict_fn_pops_keys (m : ModelAndTokenizer) (data : Payload) :
    (predict_fn m data).finalData =
      Dict.remove (Dict.remove data "inputs") "parameters"
    ∧ Dict.get ((predict_fn m data).finalData) "inputs" = Option.none
    ∧ Dict.get ((predict_fn m data).finalData) "parameters" = Option.none
    ∧ ∀ k, k ≠ "inputs" → k ≠ "parameters" →
        Dict.get ((predict_fn m data).finalData) k = Dict.get data k := by
  have hfd : (predict_fn m data).finalData =
      Dict.remove (Dict.remove data "inputs") "parameters" := rfl
  refine ⟨hfd, ?_, ?_, ?_⟩
  · rw [hfd, Dict.get_remove_ne _ (by decide), Dict.get_remove_self]
  · rw [hfd, Dict.get_remove_self]
  · intro k hki hkp
    rw [hfd, Dict.get_remove_ne _ hkp, Dict.get_remove_ne _ hki]

/-- Witness for C9 at the demo payload: the extra `request_id` key survives
with its value. -/
theorem predict_fn_pops_keys_witness :
    Dict.get ((predict_fn demoModel demoPayload).finalData) "request_id" =
      Dict.get demoPayload "request_id" :=
  (predict_fn_pops_keys demoModel demoPayload).2.2.2 "request_id"
    (by decide) (by decide)

/-! ### Claims about `model_fn` -/

/-- C4 (counterexample to the claim as stated): the 8-bit quantization flag of
`model_fn` is not configurable — there is no model directory for which the
`from_pretrained` call is made with `load_in_8bit` off.  The source hardcodes
`load_in_8bit=True`, and `model_dir` is `model_fn`'s only input. -/
theorem model_fn_quantization_not_configurable :
    ¬ ∃ model_dir, ((model_fn model_dir).1).load_in_8bit = false := by
  rintro ⟨d, h⟩
  simp [model_fn] at h

/-- C4 (amended): `model_fn` loads the sequence-to-sequence model from the
local model directory it is given with 8-bit quantization unconditionally
enabled (`load_in_8bit=True`, `device_map="auto"`), loads the tokenizer from
the same directory, and returns the (model, tokenizer) pair. -/
theorem model_fn_loads_from_model_dir (model_dir : String) :
    ((model_fn model_dir).1).path = model_dir
    ∧ ((model_fn model_dir).1).device_map = "auto"
    ∧ ((model_fn model_dir).1).load_in_8bit = true
    ∧ ((model_fn model_dir).2).path = model_dir :=
  ⟨rfl, rfl, rfl, rfl⟩

/-! ### Claim about the role-acquisition fallback -/

/-- C5: the fallback `iam.get_role(RoleName='sagemaker_execution_role')` call
runs exactly when `sagemaker.get_execution_role()` raises `ValueError`; a
success passes straight through, any non-`ValueError` exception propagates
uncaught, and on the fallback branch the outcome — including any exception
the IAM call itself raises — is exactly that of the named-role lookup. -/
theorem acquire_role_fallback_iff (ger : Raises String)
    (iam : String → Raises String) :
    ((acquire_role ger iam).fallbackRoleName = some "sagemaker_execution_role"
      ↔ ∃ msg, ger = Except.error (PyExn.valueError msg))
    ∧ (∀ r, ger = Except.ok r → (acquire_role ger iam).role = Except.ok r)
    ∧ (∀ msg, ger = Except.error (PyExn.other msg) →
        (acquire_role ger iam).role = Except.error (PyExn.other msg))
    ∧ (∀ msg, ger = Except.error (PyExn.valueError msg) →
        (acquire_role ger iam).role = iam "sagemaker_execution_role") := by
  cases ger with
  | ok r => simp [acquire_role]
  | error e =>
    cases e with
    | valueError msg => simp [acquire_role]
    | other msg => simp [acquire_role]

/-- Witness for C5: a `ValueError` from automatic role resolution triggers the
named-role fallback. -/
theorem acquire_role_fallback_iff_witness :
    (acquire_role (Except.error (PyExn.valueError "could not determine role"))
        (fun name => Except.ok ("arn:aws:iam::123456789012:role/" ++ name))
      ).fallbackRoleName = some "sagemaker_execution_role" :=
  (acquire_role_fallback_iff
      (Except.error (PyExn.valueError "could not determine role"))
      (fun name => Except.ok ("arn:aws:iam::123456789012:role/" ++ name))).1.mpr
    ⟨"could not determine role", rfl⟩

/-! ### Claim about `code/requirements.txt` -/

/-- C6: the dependency manifest is a static list of exactly three library
name/version pins — `accelerate==0.16.0`, `transformers==4.26.0`,
`bitsandbytes==0.37.0` — and nothing else: the file text is exactly those
three lines (a three-element list joined by newlines, so it holds two newline
characters), and each line is a single `name==version` pin (exactly one `==`
separator, i.e. two `=` characters). -/
theorem requirements_txt_three_pins :
    requirements_txt =
      String.intercalate "\n"
        ["accelerate==0.16.0", "transformers==4.26.0", "bitsandbytes==0.37.0"]
    ∧ requirements_txt.toList.count '\n' = 2
    ∧ ["accelerate==0.16.0", "transformers==4.26.0",
       "bitsandbytes==0.37.0"].length = 3
    ∧ (["accelerate==0.16.0", "transformers==4.26.0",
        "bitsandbytes==0.37.0"].all
        (fun line => line.toList.count '=' == 2)) = true :=
  ⟨rfl, by decide, rfl, by decide⟩

/-! ### Claim about the notebook cell order -/

/-- C7: restricted to the steps the spec enumerates (dropping the dependency
install and the `mkdir code` preliminaries), the notebook's code cells run,
top to bottom, in exactly the order: acquire session/credentials, write the
two static text files, download the weights, copy the handler code, compress,
upload, deploy, send prediction requests (twice), delete the resources. -/
theorem notebook_cell_order :
    notebookCells.filter
        (fun s => !(s == NotebookStep.installDependencies)
          && !(s == NotebookStep.makeCodeDir)) =
      [NotebookStep.acquireSession,
       NotebookStep.writeRequirementsFile,
       NotebookStep.writeInferenceFile,
       NotebookStep.downloadWeights,
       NotebookStep.copyHandlerCode,
       NotebookStep.compressArchive,
       NotebookStep.uploadArchive,
       NotebookStep.deployModel,
       NotebookStep.sendPredictRequest,
       NotebookStep.sendPredictRequest,
       NotebookStep.deleteResources] := by
  decide

/-! ### Claims about `compress` -/

/-- A successful pass over the items adds exactly one member per listed item,
stored under the item's own name (`tar.add(item, arcname=item)`). -/
theorem addItems_ok (addFail : String → Option PyExn) :
    ∀ (items : List String) (es : List TarEntry),
      addItems addFail items = Except.ok es →
      es = items.map (fun it => { path := it, arcname := it }) := by
  intro items
  induction items with
  | nil =>
    intro es h
    injection h with h
    rw [← h]
    rfl
  | cons item rest ih =>
    intro es h
    unfold addItems at h
    cases haf : addFail item with
    | some e =>
      rw [haf] at h
      exact absurd h (by simp)
    | none =>
      rw [haf] at h
      cases hrec : addItems addFail rest with
      | error e =>
        rw [hrec] at h
        exact absurd h (by simp)
      | ok es' =>
        rw [hrec] at h
        injection h with h
        rw [← h, ih es' hrec]
        rfl

/-- Demo filesystem: home directory with a two-item model directory. -/
def demoFS : FS where
  cwd := "/home/user"
  listing := fun _ => ["config.json", "code"]

/-- Oracle for a run in which no `tar.add` call raises. -/
def noFail : String → Option PyExn := fun _ => Option.none

/-- The archive `compress demoFS noFail "flan-t5-xxl-sharded-fp16"` produces. -/
def demoCompressResult : CompressResult where
  archivePath := "/home/user/model.tar.gz"
  mode := "w:gz"
  entries := [{ path := "config.json", arcname := "config.json" },
              { path := "code", arcname := "code" }]

/-- C1: a successful `compress` opens the archive in gzip-compressed tar mode
(`"w:gz"`) and its members are exactly the listed items of the target
directory, each stored under its own name — `arcname` equals the item name,
with no enclosing folder prefixed. -/
theorem compress_entries_flat (fs : FS) (addFail : String → Option PyExn)
    (tar_dir output_file : String) (r : CompressResult) (fs' : FS)
    (h : compress fs addFail tar_dir output_file = Except.ok (r, fs')) :
    r.mode = "w:gz"
    ∧ r.entries = (fs.listing tar_dir).map (fun it => { path := it, arcname := it })
    ∧ ∀ e ∈ r.entries, e.arcname = e.path := by
  unfold compress at h
  dsimp only at h
  cases hi : addItems addFail (fs.listing tar_dir) with
  | error e =>
    rw [hi] at h
    exact absurd h (by simp)
  | ok es =>
    rw [hi] at h
    injection h with h
    have hr : r = { archivePath := joinPath fs.cwd output_file
                    mode := "w:gz", entries := es } :=
      (congrArg Prod.fst h).symm
    have hes := addItems_ok addFail (fs.listing tar_dir) es hi
    refine ⟨by rw [hr], by rw [hr]; exact hes, ?_⟩
    intro e he
    rw [hr] at he
    simp only [] at he
    rw [hes] at he
    rcases List.mem_map.mp he with ⟨it, _, hit⟩
    rw [← hit]

/-- Witness for C1: the demo archive's members are the model directory's items
under their own names. -/
theorem compress_entries_flat_witness :
    demoCompressResult.entries =
      (demoFS.listing "flan-t5-xxl-sharded-fp16").map
        (fun it => { path := it, arcname := it }) :=
  (compress_entries_flat demoFS noFail "flan-t5-xxl-sharded-fp16" "model.tar.gz"
    demoCompressResult demoFS rfl).2.1

/-- C10: whenever `compress` completes without raising, the working directory
afterwards equals the working directory before the call (it changes into the
target directory and changes back on success); when a `tar.add` raises, the
exception propagates with the working directory still the target directory —
the restoring `chdir` is never reached. -/
theorem compress_restores_cwd (fs : FS) (addFail : String → Option PyExn)
    (tar_dir output_file : String) :
    (∀ r fs', compress fs addFail tar_dir output_file = Except.ok (r, fs') →
      fs'.cwd = fs.cwd)
    ∧ (∀ e fs', compress fs addFail tar_dir output_file = Except.error (e, fs') →
      fs'.cwd = tar_dir) := by
  constructor
  · intro r fs' h
    unfold compress at h
    dsimp only at h
    cases hi : addItems addFail (fs.listing tar_dir) with
    | error e =>
      rw [hi] at h
      exact absurd h (by simp)
    | ok es =>
      rw [hi] at h
      injection h with h
      have h2 : fs' = { cwd := fs.cwd, listing := fs.listing } :=
        (congrArg Prod.snd h).symm
      rw [h2]
  · intro e fs' h
    unfold compress at h
    dsimp only at h
    cases hi : addItems addFail (fs.listing tar_dir) with
    | error e' =>
      rw [hi] at h
      injection h with h
      have h2 : fs' = { cwd := tar_dir, listing := fs.listing } :=
        (congrArg Prod.snd h).symm
      rw [h2]
    | ok es =>
      rw [hi] at h
      exact absurd h (by simp)

/-- Witness for C10: at the demo filesystem `compress` succeeds and the final
working directory is the original `/home/user`. -/
theorem compress_restores_cwd_witness :
    compress demoFS noFail "flan-t5-xxl-sharded-fp16" "model.tar.gz" =
      Except.ok (demoCompressResult, demoFS)
    ∧ demoFS.cwd = "/home/user" :=
  ⟨rfl,
   Eq.trans
     (Eq.symm ((compress_restores_cwd demoFS noFail "flan-t5-xxl-sharded-fp16"
        "model.tar.gz").1 demoCompressResult demoFS rfl))
     rfl⟩

end FlanT5
